import Mathlib

/-!
Shallow embedding of the scene-transition state machine, camera controller
and render configuration of `src/App.jsx` (single-page 3D portfolio).

The React component state (`speed`, `currentScene`, `isJumping`, `flash`),
the `timerRef` mutable ref, the browser timer queue and the scroll position
are modelled as one record `AppState`.  `setTimeout` is modelled by
appending a `Timer` (fresh id, absolute fire time, action) to the queue;
`clearTimeout id` removes the pending timer with that id (a no-op when the
timer already fired or the handle is stale); the event loop fires the
pending timer with the least fire time (FIFO among equal times, which, with
ids allocated in increasing order, is the timer with the least id — the
queue is kept in allocation order, so the first minimum in the list).
JavaScript's `Math.random()` contract (a uniform value in `[0, 1)`) is a
parameter `0 ≤ r < 1` of the per-frame camera update; numbers are `ℚ`.
-/

namespace PortfolioSpec

/-- The six scene identifiers of the application. -/
inductive Scene
  | travel
  | blackhole
  | wormhole
  | earth
  | projects
  | contact
deriving DecidableEq, Repr, Fintype

/-- The four kinds of scheduled callbacks occurring in `App.jsx`:
the `startWarp` 5000ms timer body, and the three nested `setTimeout`
bodies of `handleJump`. -/
inductive TAction
  | warpFire
  | flashOn (target : Scene)
  | sceneSwap (target : Scene)
  | flashOff
deriving DecidableEq, Repr

/-- A pending `setTimeout`: its id, absolute fire time (ms), and body. -/
structure Timer where
  id : ℕ
  fireAt : ℕ
  act : TAction
deriving DecidableEq, Repr

/-- The whole mutable state of the `App` component together with the
browser timer queue, current time and scroll position. -/
structure AppState where
  now : ℕ
  speed : ℚ
  currentScene : Scene
  isJumping : Bool
  flash : Bool
  scrollY : ℕ
  timers : List Timer
  timerRef : Option ℕ
  nextId : ℕ
deriving DecidableEq, Repr

/-- Source: `nextScene === 'travel' ? 1 : 0.2` (App.jsx line 143). -/
def restingSpeed (sc : Scene) : ℚ :=
  if sc = Scene.travel then 1 else 1/5

/-- Model of `setTimeout(body, delay)`: allocate a fresh id and enqueue the timer. -/
def scheduleTimer (s : AppState) (delay : ℕ) (a : TAction) : AppState :=
  { s with
    timers := s.timers ++ [⟨s.nextId, s.now + delay, a⟩]
    nextId := s.nextId + 1 }

/-- Source: `handleJump(nextScene)` (App.jsx lines 137-148): set `isJumping`,
`speed = 12`, and schedule the flash step at +1000ms.  The nested
timeouts are scheduled later, by the fired callbacks themselves. -/
def handleJump (target : Scene) (s : AppState) : AppState :=
  scheduleTimer { s with isJumping := true, speed := 12 } 1000 (.flashOn target)

/-- Source: `startWarp` (App.jsx lines 150-153): `speed = 8` and store in
`timerRef` the id of a fresh 5000ms timer that will run
`handleJump('blackhole')`. -/
def startWarp (s : AppState) : AppState :=
  { scheduleTimer { s with speed := 8 } 5000 .warpFire with timerRef := some s.nextId }

/-- Model of `clearTimeout(timerRef.current)`: drop the pending timer whose id is
held by the ref; no-op when the ref is `null` or the timer is gone. -/
def clearWarpTimeout (s : AppState) : AppState :=
  match s.timerRef with
  | none => s
  | some i => { s with timers := s.timers.filter (fun t => t.id != i) }

/-- The travel-scene button's `onMouseUp` handler (App.jsx line 226):
`clearTimeout(timerRef.current); setSpeed(1)`. -/
def releaseCharge (s : AppState) : AppState :=
  { clearWarpTimeout s with speed := 1 }

/-- The body of each scheduled callback, run at its fire time. -/
def runTimerAction (s : AppState) : TAction → AppState
  | .warpFire => handleJump .blackhole s
  | .flashOn target =>
      scheduleTimer { s with flash := true } 200 (.sceneSwap target)
  | .sceneSwap target =>
      scheduleTimer
        { s with
          currentScene := target
          isJumping := false
          speed := restingSpeed target
          scrollY := 0 }
        800 .flashOff
  | .flashOff => { s with flash := false }

/-- The first timer in the queue with the least fire time (the queue is in
allocation order, so this is the event loop's FIFO choice). -/
def pickEarliest : List Timer → Option Timer
  | [] => none
  | t :: ts =>
      match pickEarliest ts with
      | none => some t
      | some u => if u.fireAt < t.fireAt then some u else some t

/-- One event-loop step: fire the earliest pending timer, advancing the
clock to its fire time; `none` when the queue is empty. -/
def fireNext (s : AppState) : Option AppState :=
  match pickEarliest s.timers with
  | none => none
  | some t =>
      some (runTimerAction
        { s with now := t.fireAt, timers := s.timers.filter (fun u => u.id != t.id) }
        t.act)

/-- Total version of `fireNext`: leaves the state unchanged when no timer is due. -/
def stepFire (s : AppState) : AppState :=
  (fireNext s).getD s

/-- The component's initial state (App.jsx lines 131-135): `useState(1)`,
`useState('travel')`, `useState(false)`, `useState(false)`, `useRef(null)`. -/
def initState : AppState where
  now := 0
  speed := 1
  currentScene := Scene.travel
  isJumping := false
  flash := false
  scrollY := 0
  timers := []
  timerRef := none
  nextId := 0

/-- The fixed advance button rendered in each scene (App.jsx lines
231-325): each non-travel scene shows one button bound to `handleJump`
with a fixed target; the travel scene instead has the charge button. -/
def clickTarget : Scene → Option Scene
  | Scene.travel => none
  | Scene.blackhole => some Scene.wormhole
  | Scene.wormhole => some Scene.earth
  | Scene.earth => some Scene.projects
  | Scene.projects => some Scene.contact
  | Scene.contact => some Scene.travel

/-- One atomic event of the UI event loop: a mouse-down or mouse-up on the
charge button (rendered only in the travel scene), a click on the
rendered advance button, or the firing of the earliest pending timer. -/
inductive Step : AppState → AppState → Prop
  | mouseDown {s} : s.currentScene = Scene.travel → Step s (startWarp s)
  | mouseUp {s} : s.currentScene = Scene.travel → Step s (releaseCharge s)
  | click {s target} : clickTarget s.currentScene = some target →
      Step s (handleJump target s)
  | timer {s s'} : fireNext s = some s' → Step s s'

/-- States reachable from application start by any sequence of user
events and timer firings. -/
inductive Reachable : AppState → Prop
  | init : Reachable initState
  | step {s s'} : Reachable s → Step s s' → Reachable s'

/-- Mutable camera state read and written by `CameraManager`. -/
structure Camera where
  x : ℚ
  y : ℚ
  fov : ℚ
deriving DecidableEq, Repr

/-- Source: `THREE.MathUtils.lerp(x, y, t) = x + (y - x) * t`. -/
def lerp (x y t : ℚ) : ℚ := x + (y - x) * t

/-- Source: `isJumping ? 140 : 75` (App.jsx line 14). -/
def fovTarget (isJumping : Bool) : ℚ :=
  if isJumping then 140 else 75

/-- The field-of-view update of one `CameraManager` frame (App.jsx
lines 14-15): interpolate 5% toward the target. -/
def fovStep (isJumping : Bool) (fov : ℚ) : ℚ :=
  lerp fov (fovTarget isJumping) (1/20)

/-- One `CameraManager` frame (App.jsx lines 9-17): jitter the camera
position by `(Math.random() - 0.5) * (speed * 0.015)` on each of x and y
when `speed > 1 && !isJumping`, then ease the field of view.  `rx`, `ry`
stand for the two `Math.random()` draws, each in `[0, 1)`. -/
def cameraFrame (speed : ℚ) (isJumping : Bool) (rx ry : ℚ) (c : Camera) : Camera :=
  let c1 :=
    if 1 < speed ∧ isJumping = false then
      { c with
        x := c.x + (rx - 1/2) * (speed * (3/200))
        y := c.y + (ry - 1/2) * (speed * (3/200)) }
    else c
  { c1 with fov := fovStep isJumping c1.fov }

/-- Field-of-view trajectory over frames of a sustained `isJumping = true`
period, starting from `f0`. -/
def fovSeq (f0 : ℚ) : ℕ → ℚ
  | 0 => f0
  | n + 1 => fovStep true (fovSeq f0 n)

/-- The three `OrbitControls` switches. -/
structure OrbitProps where
  enableZoom : Bool
  enableRotate : Bool
  enablePan : Bool
deriving DecidableEq, Repr

/-- The `OrbitControls` element (App.jsx lines 214-218):
`enableZoom={currentScene === 'contact'}`,
`enableRotate={currentScene !== 'travel' && window.innerWidth > 768}`,
`enablePan={false}`. -/
def orbitControlsProps (scene : Scene) (innerWidth : ℕ) : OrbitProps where
  enableZoom := scene == Scene.contact
  enableRotate := scene != Scene.travel && decide (768 < innerWidth)
  enablePan := false

/-- The inline style of the root container. -/
structure RootStyle where
  width : String
  height : String
  background : String
  position : String
  overflowY : String
  color : String
  fontFamily : String
deriving DecidableEq, Repr

/-- The root container's style object (App.jsx lines 156-159):
`overflowY` is `'hidden'` in the travel scene and `'auto'` otherwise;
every other property is a constant. -/
def rootContainerStyle (scene : Scene) : RootStyle where
  width := "100vw"
  height := "100vh"
  background := "#000"
  position := "relative"
  overflowY := if scene = Scene.travel then "hidden" else "auto"
  color := "white"
  fontFamily := "\"Inter\", sans-serif"

/-! ## Theorems -/

/-- C9: at application start, before any user event, the state is exactly
`currentScene = travel`, `speed = 1`, `isJumping = false`, `flash = false`,
and no timer is pending (the timer handle is null). -/
theorem C9_initial_state :
    initState.currentScene = Scene.travel ∧
    initState.speed = 1 ∧
    initState.isJumping = false ∧
    initState.flash = false ∧
    initState.timers = [] ∧
    initState.timerRef = none := by
  refine ⟨rfl, rfl, rfl, rfl, rfl, rfl⟩

/-- C10: page vertical scrolling is disabled (`overflowY` hidden) on the
root container exactly when the current scene is travel, and enabled
(`overflowY` auto) in every other scene; every other property of the root
container's style is scene-independent, so `overflowY` is the only
scene-dependent property of the root container's styling. -/
theorem C10_root_overflow :
    (∀ sc, (rootContainerStyle sc).overflowY = "hidden" ↔ sc = Scene.travel) ∧
    (∀ sc, (rootContainerStyle sc).overflowY = "auto" ↔ sc ≠ Scene.travel) ∧
    (∀ sc sc',
      (rootContainerStyle sc).width = (rootContainerStyle sc').width ∧
      (rootContainerStyle sc).height = (rootContainerStyle sc').height ∧
      (rootContainerStyle sc).background = (rootContainerStyle sc').background ∧
      (rootContainerStyle sc).position = (rootContainerStyle sc').position ∧
      (rootContainerStyle sc).color = (rootContainerStyle sc').color ∧
      (rootContainerStyle sc).fontFamily = (rootContainerStyle sc').fontFamily) := by
  refine ⟨?_, ?_, ?_⟩ <;> decide

/-- C8 (counterexample to the claim as stated): at viewport width exactly
768 with a non-travel scene, the viewport is not narrow (not `< 768`), yet
the code disables rotation-drag, because the source tests
`window.innerWidth > 768` strictly.  So rotation-drag enabled is not
equivalent to "scene is not travel and the viewport is not narrow". -/
theorem C8_rotate_at_768_counterexample :
    ¬(((orbitControlsProps Scene.blackhole 768).enableRotate = true) ↔
      (Scene.blackhole ≠ Scene.travel ∧ ¬(768 < 768))) := by
  decide

/-- C8 (amended): rotation-drag is enabled iff the scene is not travel and
the viewport width is strictly greater than 768 logical pixels; zoom is
enabled iff the scene is contact; panning is disabled in every scene. -/
theorem C8_orbit_controls (sc : Scene) (w : ℕ) :
    ((orbitControlsProps sc w).enableRotate = true ↔ (sc ≠ Scene.travel ∧ 768 < w)) ∧
    ((orbitControlsProps sc w).enableZoom = true ↔ sc = Scene.contact) ∧
    (orbitControlsProps sc w).enablePan = false := by
  simp [orbitControlsProps]

/-- The observable timeline of one uninterrupted `handleJump target` run
from state `s`: immediate effects, then the three timer firings. -/
def jumpTimelineSpec (s : AppState) (target : Scene) : Prop :=
  let s1 := handleJump target s
  let s2 := stepFire s1
  let s3 := stepFire s2
  let s4 := stepFire s3
  s1.isJumping = true ∧ s1.speed = 12 ∧
  s1.currentScene = s.currentScene ∧ s1.flash = s.flash ∧
  s2.now = s.now + 1000 ∧ s2.flash = true ∧
  s2.currentScene = s.currentScene ∧ s2.isJumping = true ∧
  s3.now = s.now + 1200 ∧ s3.currentScene = target ∧ s3.isJumping = false ∧
  s3.speed = restingSpeed target ∧ s3.scrollY = 0 ∧ s3.flash = true ∧
  s4.now = s.now + 2000 ∧ s4.flash = false ∧ s4.timers = []

/-- C1: invoking `handleJump target` with no pending timers and no further
user events immediately sets `isJumping = true` and `speed = 12`; exactly
1000ms later `flash` becomes true; 200ms after that `currentScene` becomes
the target, `isJumping` becomes false, `speed` becomes 1 if the target is
travel and 0.2 otherwise, and the scroll position is reset to the top; and
800ms after the swap (2000ms total) `flash` becomes false. -/
theorem C1_jump_timeline (s : AppState) (target : Scene) (h : s.timers = []) :
    jumpTimelineSpec s target := by
  simp only [jumpTimelineSpec, stepFire, fireNext, handleJump, scheduleTimer,
    runTimerAction, pickEarliest, restingSpeed, h]
  simp [List.filter, pickEarliest]

/-- C1 witness: the timeline realized from the initial state with target
wormhole. -/
theorem C1_jump_timeline_witness :
    initState.timers = [] ∧ jumpTimelineSpec initState Scene.wormhole :=
  ⟨rfl, C1_jump_timeline initState Scene.wormhole rfl⟩

/-- The observable outcome of a full uninterrupted warp: `startWarp`
from state `s`, then the warp timer and the whole jump chain fire. -/
def warpRunSpec (s : AppState) : Prop :=
  let s1 := startWarp s
  let s5 := stepFire (stepFire (stepFire (stepFire s1)))
  s1.speed = 8 ∧
  s1.timers = [⟨s.nextId, s.now + 5000, TAction.warpFire⟩] ∧
  s1.timerRef = some s.nextId ∧
  s1.currentScene = s.currentScene ∧
  s5.currentScene = Scene.blackhole ∧
  s5.speed = 1/5 ∧
  s5.isJumping = false ∧
  s5.flash = false ∧
  s5.timers = []

/-- C2: from the resting travel scene, pressing and holding the charge
control sets `speed = 8` and schedules a single 5000ms timer; if the hold
is never released the timer fires, `handleJump('blackhole')` runs, and
after the chain completes `currentScene = blackhole` and `speed` settles
to 0.2. -/
theorem C2_warp_auto_jump (s : AppState) (ht : s.timers = [])
    (_hsc : s.currentScene = Scene.travel) (_hsp : s.speed = 1) :
    warpRunSpec s := by
  simp only [warpRunSpec, startWarp, stepFire, fireNext, handleJump, scheduleTimer,
    runTimerAction, pickEarliest, restingSpeed, ht]
  simp [List.filter, pickEarliest]

/-- C2 witness: the full warp run from the initial state. -/
theorem C2_warp_auto_jump_witness :
    initState.timers = [] ∧ initState.currentScene = Scene.travel ∧
    initState.speed = 1 ∧ warpRunSpec initState :=
  ⟨rfl, rfl, rfl, C2_warp_auto_jump initState rfl rfl rfl⟩

/-- The observable outcome of charging then releasing before the warp
timer fires: `startWarp` immediately followed by the `onMouseUp` handler. -/
def cancelChargeSpec (s : AppState) : Prop :=
  let s2 := releaseCharge (startWarp s)
  s2.currentScene = s.currentScene ∧
  s2.speed = 1 ∧
  s2.isJumping = false ∧
  s2.flash = false ∧
  s2.timers = [] ∧
  fireNext s2 = none

/-- C3: for a charge started in the travel scene, releasing the charge
control before the 5000ms timer fires cancels the pending timer, leaves
`currentScene` unchanged, resets `speed` to 1, leaves `isJumping` and
`flash` false, and schedules no further transition (no timer can fire). -/
theorem C3_cancel_charge (s : AppState) (ht : s.timers = [])
    (_hsc : s.currentScene = Scene.travel) (hj : s.isJumping = false)
    (hf : s.flash = false) :
    cancelChargeSpec s := by
  simp only [cancelChargeSpec, startWarp, releaseCharge, clearWarpTimeout,
    scheduleTimer, fireNext, pickEarliest, ht]
  simp [List.filter, pickEarliest, hj, hf]

/-- C3 witness: charging then releasing from the initial state. -/
theorem C3_cancel_charge_witness :
    initState.timers = [] ∧ initState.currentScene = Scene.travel ∧
    initState.isJumping = false ∧ initState.flash = false ∧
    cancelChargeSpec initState :=
  ⟨rfl, rfl, rfl, rfl, C3_cancel_charge initState rfl rfl rfl rfl⟩

/-- C4 (counterexample to the claim as stated): hold the charge from the
initial state until the warp timer fires (speed is then 12, the jump is in
flight), then release.  The `onMouseUp` handler runs
`clearTimeout(timerRef.current); setSpeed(1)` unconditionally, so the
release changes the observable `speed` from 12 to 1 — not a no-op. -/
theorem C4_release_after_fire_counterexample :
    (stepFire (startWarp initState)).speed = 12 ∧
    (releaseCharge (stepFire (startWarp initState))).speed = 1 ∧
    (releaseCharge (stepFire (startWarp initState))).speed ≠
      (stepFire (startWarp initState)).speed := by
  refine ⟨rfl, rfl, by decide⟩

/-- C4 (amended): releasing the charge control after its timer has fired
(the ref's id matches no pending timer) cancels nothing and leaves
`currentScene`, `isJumping`, `flash`, the clock and all pending jump
timers undisturbed — the in-flight jump sequence continues on schedule —
but it does reset `speed` to 1 (later overwritten at the scene swap). -/
theorem C4_release_after_fire (s : AppState) (i : ℕ)
    (href : s.timerRef = some i) (hgone : ∀ t ∈ s.timers, t.id ≠ i) :
    (releaseCharge s).speed = 1 ∧
    (releaseCharge s).currentScene = s.currentScene ∧
    (releaseCharge s).isJumping = s.isJumping ∧
    (releaseCharge s).flash = s.flash ∧
    (releaseCharge s).timers = s.timers ∧
    (releaseCharge s).now = s.now := by
  have hfilter : s.timers.filter (fun t => t.id != i) = s.timers := by
    rw [List.filter_eq_self]
    intro t htm
    simpa using hgone t htm
  simp [releaseCharge, clearWarpTimeout, href, hfilter]

/-- C4 witness: the amended statement realized right after the warp timer
fired from the initial state (stale handle id 0, pending timer id 1). -/
theorem C4_release_after_fire_witness :
    (stepFire (startWarp initState)).timerRef = some 0 ∧
    (releaseCharge (stepFire (startWarp initState))).speed = 1 ∧
    (releaseCharge (stepFire (startWarp initState))).timers =
      (stepFire (startWarp initState)).timers :=
  ⟨rfl, (C4_release_after_fire (stepFire (startWarp initState)) 0 rfl (by decide)).1,
    (C4_release_after_fire (stepFire (startWarp initState)) 0 rfl (by decide)).2.2.2.2.1⟩

/-- C5 (counterexample to the claim as stated): `Math.random()` ranges
over `[0, 1)`, so the draw 0 is possible; then the per-axis delta equals
`-0.5 * speed * 0.015` exactly — the closed left endpoint — which is not
in the open range `(-0.5, 0.5) * speed * 0.015`.  With `speed = 12`,
`rx = 0`, the x-delta is exactly `-9/100`, not strictly greater than
`-0.5 * (12 * 0.015) = -9/100`. -/
theorem C5_jitter_open_range_counterexample :
    (cameraFrame 12 false 0 0 ⟨0, 0, 75⟩).x - (0 : ℚ) = -(9/100) ∧
    ¬(-(1/2) * (12 * (3/200)) < (cameraFrame 12 false 0 0 ⟨0, 0, 75⟩).x - (0 : ℚ)) := by
  constructor
  · norm_num [cameraFrame]
  · norm_num [cameraFrame]

/-- C5 (amended): on every frame, positional jitter is applied iff
`speed > 1` and `isJumping = false`; when applied, x and y each receive an
independent delta `(r - 0.5) * speed * 0.015` with `r` the uniform
`Math.random()` draw, so each delta lies in the half-open range
`[-0.5, 0.5) * speed * 0.015`; when the condition fails the camera
position is left unchanged by the camera controller. -/
theorem C5_camera_jitter (speed : ℚ) (isJumping : Bool) (rx ry : ℚ) (c : Camera)
    (hrx0 : 0 ≤ rx) (hrx1 : rx < 1) (hry0 : 0 ≤ ry) (hry1 : ry < 1) :
    ((1 < speed ∧ isJumping = false) →
      ((cameraFrame speed isJumping rx ry c).x = c.x + (rx - 1/2) * (speed * (3/200)) ∧
       (cameraFrame speed isJumping rx ry c).y = c.y + (ry - 1/2) * (speed * (3/200)) ∧
       -(1/2) * (speed * (3/200)) ≤ (cameraFrame speed isJumping rx ry c).x - c.x ∧
       (cameraFrame speed isJumping rx ry c).x - c.x < (1/2) * (speed * (3/200)) ∧
       -(1/2) * (speed * (3/200)) ≤ (cameraFrame speed isJumping rx ry c).y - c.y ∧
       (cameraFrame speed isJumping rx ry c).y - c.y < (1/2) * (speed * (3/200)))) ∧
    (¬(1 < speed ∧ isJumping = false) →
      ((cameraFrame speed isJumping rx ry c).x = c.x ∧
       (cameraFrame speed isJumping rx ry c).y = c.y)) := by
  constructor
  · intro hcond
    have hs : (0 : ℚ) < speed * (3/200) := by
      have h1 : (1 : ℚ) < speed := hcond.1
      nlinarith
    have hx : (cameraFrame speed isJumping rx ry c).x =
        c.x + (rx - 1/2) * (speed * (3/200)) := by
      simp [cameraFrame, if_pos hcond]
    have hy : (cameraFrame speed isJumping rx ry c).y =
        c.y + (ry - 1/2) * (speed * (3/200)) := by
      simp [cameraFrame, if_pos hcond]
    have hlx : -(1/2) * (speed * (3/200)) ≤ (rx - 1/2) * (speed * (3/200)) :=
      mul_le_mul_of_nonneg_right (by linarith) (le_of_lt hs)
    have hux : (rx - 1/2) * (speed * (3/200)) < (1/2) * (speed * (3/200)) :=
      mul_lt_mul_of_pos_right (by linarith) hs
    have hly : -(1/2) * (speed * (3/200)) ≤ (ry - 1/2) * (speed * (3/200)) :=
      mul_le_mul_of_nonneg_right (by linarith) (le_of_lt hs)
    have huy : (ry - 1/2) * (speed * (3/200)) < (1/2) * (speed * (3/200)) :=
      mul_lt_mul_of_pos_right (by linarith) hs
    exact ⟨hx, hy, by rw [hx]; linarith, by rw [hx]; linarith,
      by rw [hy]; linarith, by rw [hy]; linarith⟩
  · intro hcond
    simp [cameraFrame, if_neg hcond]

/-- C5 witness: a jittered frame at `speed = 12`, draws `rx = ry = 1/2`. -/
theorem C5_camera_jitter_witness :
    (0 : ℚ) ≤ 1/2 ∧ (1/2 : ℚ) < 1 ∧
    ((1 < (12 : ℚ) ∧ false = false) →
      ((cameraFrame 12 false (1/2) (1/2) ⟨0, 0, 75⟩).x = 0 + (1/2 - 1/2) * (12 * (3/200)) ∧
       (cameraFrame 12 false (1/2) (1/2) ⟨0, 0, 75⟩).y = 0 + (1/2 - 1/2) * (12 * (3/200)) ∧
       -(1/2) * (12 * (3/200)) ≤ (cameraFrame 12 false (1/2) (1/2) ⟨0, 0, 75⟩).x - 0 ∧
       (cameraFrame 12 false (1/2) (1/2) ⟨0, 0, 75⟩).x - 0 < (1/2) * (12 * (3/200)) ∧
       -(1/2) * (12 * (3/200)) ≤ (cameraFrame 12 false (1/2) (1/2) ⟨0, 0, 75⟩).y - 0 ∧
       (cameraFrame 12 false (1/2) (1/2) ⟨0, 0, 75⟩).y - 0 < (1/2) * (12 * (3/200)))) :=
  ⟨by norm_num, by norm_num,
    (C5_camera_jitter 12 false (1/2) (1/2) ⟨0, 0, 75⟩
      (by norm_num) (by norm_num) (by norm_num) (by norm_num)).1⟩

/-- Closed form of the field-of-view trajectory under sustained jumping:
the distance to 140 shrinks by the factor 19/20 each frame. -/
theorem fovSeq_geom (f0 : ℚ) (n : ℕ) :
    140 - fovSeq f0 n = (19/20) ^ n * (140 - f0) := by
  induction n with
  | zero => simp [fovSeq]
  | succ n ih =>
      have hstep : fovSeq f0 (n + 1) = fovSeq f0 n + (140 - fovSeq f0 n) * (1/20) := by
        simp [fovSeq, fovStep, lerp, fovTarget]
      calc 140 - fovSeq f0 (n + 1)
          = (19/20) * (140 - fovSeq f0 n) := by rw [hstep]; ring
        _ = (19/20) * ((19/20) ^ n * (140 - f0)) := by rw [ih]
        _ = (19/20) ^ (n + 1) * (140 - f0) := by ring

/-- C6: each frame moves the field of view 5% of the remaining distance
toward the target (140 while jumping, 75 otherwise) — this is exactly the
fov part of a `CameraManager` frame; under sustained `isJumping = true`
the fov sequence is strictly increasing below 140, never overshoots 140,
the distance to the target shrinks by the factor 0.95 each frame, and from
a starting value distinct from 140 it never reaches 140 exactly. -/
theorem C6_fov_easing :
    (fovTarget true = 140 ∧ fovTarget false = 75) ∧
    (∀ (b : Bool) (f : ℚ), fovStep b f - f = (fovTarget b - f) * (1/20)) ∧
    (∀ (speed : ℚ) (j : Bool) (rx ry : ℚ) (c : Camera),
      (cameraFrame speed j rx ry c).fov = fovStep j c.fov) ∧
    (∀ (f0 : ℚ) (n : ℕ), f0 < 140 →
      fovSeq f0 n < fovSeq f0 (n + 1) ∧ fovSeq f0 n < 140) ∧
    (∀ (f0 : ℚ) (n : ℕ),
      140 - fovSeq f0 (n + 1) = (19/20) * (140 - fovSeq f0 n)) ∧
    (∀ (f0 : ℚ) (n : ℕ), 140 - fovSeq f0 n = (19/20) ^ n * (140 - f0)) ∧
    (∀ (f0 : ℚ) (n : ℕ), f0 ≠ 140 → fovSeq f0 n ≠ 140) := by
  have hpos : ∀ (f0 : ℚ) (n : ℕ), f0 < 140 → 0 < 140 - fovSeq f0 n := by
    intro f0 n h
    rw [fovSeq_geom]
    exact mul_pos (pow_pos (by norm_num) n) (by linarith)
  refine ⟨⟨by norm_num [fovTarget], by norm_num [fovTarget]⟩, ?_, ?_, ?_, ?_, ?_, ?_⟩
  · intro b f
    simp [fovStep, lerp]
  · intro speed j rx ry c
    simp only [cameraFrame]
    split <;> rfl
  · intro f0 n h
    have hlt := hpos f0 n h
    have hstep : fovSeq f0 (n + 1) = fovSeq f0 n + (140 - fovSeq f0 n) * (1/20) := by
      simp [fovSeq, fovStep, lerp, fovTarget]
    constructor
    · rw [hstep]; linarith
    · linarith
  · intro f0 n
    rw [fovSeq_geom, fovSeq_geom, pow_succ]
    ring
  · exact fovSeq_geom
  · intro f0 n h heq
    have hp : ((19 : ℚ)/20) ^ n ≠ 0 := pow_ne_zero _ (by norm_num)
    have hf : (140 : ℚ) - f0 ≠ 0 := sub_ne_zero.mpr (Ne.symm h)
    have h0 : ((19 : ℚ)/20) ^ n * (140 - f0) = 0 := by
      rw [← fovSeq_geom f0 n, heq]; ring
    exact (mul_ne_zero hp hf) h0

/-- C6 witness: the easing realized from fov 75 during a jump. -/
theorem C6_fov_easing_witness :
    (75 : ℚ) < 140 ∧ fovSeq 75 0 < fovSeq 75 1 ∧ fovSeq 75 0 < 140 ∧
    (75 : ℚ) ≠ 140 ∧ fovSeq 75 3 ≠ 140 :=
  ⟨by norm_num,
    (C6_fov_easing.2.2.2.1 75 0 (by norm_num)).1,
    (C6_fov_easing.2.2.2.1 75 0 (by norm_num)).2,
    by norm_num,
    C6_fov_easing.2.2.2.2.2.2 75 3 (by norm_num)⟩

/-- Unfolding of `fireNext` at a state whose earliest pending timer is known. -/
theorem fireNext_eq {s : AppState} {t : Timer}
    (hpick : pickEarliest s.timers = some t) :
    fireNext s = some (runTimerAction
      { s with now := t.fireAt, timers := s.timers.filter (fun u => u.id != t.id) }
      t.act) := by
  unfold fireNext
  rw [hpick]

/-- Value of `fireNext` at a state with no pending timer. -/
theorem fireNext_none {s : AppState}
    (hpick : pickEarliest s.timers = none) : fireNext s = none := by
  unfold fireNext
  rw [hpick]

/-- Every event of the UI loop keeps `speed` in the set of values the
source ever assigns: 0.2, 1, 8, 12. -/
theorem step_speed {s s' : AppState} (hs : Step s s')
    (h : s.speed = 1/5 ∨ s.speed = 1 ∨ s.speed = 8 ∨ s.speed = 12) :
    s'.speed = 1/5 ∨ s'.speed = 1 ∨ s'.speed = 8 ∨ s'.speed = 12 := by
  cases hs with
  | mouseDown hm => right; right; left; rfl
  | mouseUp hm => right; left; rfl
  | click hc => right; right; right; rfl
  | timer hf =>
      rcases hpick : pickEarliest s.timers with _ | t
      · rw [fireNext_none hpick] at hf
        exact Option.noConfusion hf
      · rw [fireNext_eq hpick] at hf
        injection hf with hf'
        subst hf'
        cases hact : t.act with
        | warpFire => right; right; right; rfl
        | flashOn target => simpa [runTimerAction, scheduleTimer] using h
        | sceneSwap target =>
            rcases eq_or_ne target Scene.travel with ht | ht <;>
              simp [runTimerAction, scheduleTimer, restingSpeed, ht]
        | flashOff => simpa [runTimerAction] using h

/-- C7: in every state reachable from application start by any sequence
of user events and timer firings, `speed` is non-negative and is one of
the values the source assigns (0.2, 1, 8, 12); and whenever the fired
timer is a scene swap (a transition completing), the resulting state's
`speed` equals the resting value of its (new) current scene. -/
theorem C7_speed_invariant :
    (∀ s : AppState, Reachable s →
      0 ≤ s.speed ∧
      (s.speed = 1/5 ∨ s.speed = 1 ∨ s.speed = 8 ∨ s.speed = 12)) ∧
    (∀ (s s' : AppState) (t : Timer) (target : Scene),
      pickEarliest s.timers = some t → t.act = TAction.sceneSwap target →
      fireNext s = some s' → s'.speed = restingSpeed s'.currentScene) := by
  constructor
  · intro s hr
    have hmem : s.speed = 1/5 ∨ s.speed = 1 ∨ s.speed = 8 ∨ s.speed = 12 := by
      induction hr with
      | init => right; left; rfl
      | step _ hstep ih => exact step_speed hstep ih
    refine ⟨?_, hmem⟩
    rcases hmem with h | h | h | h <;> rw [h] <;> norm_num
  · intro s s' t target hpick hact hf
    rw [fireNext_eq hpick] at hf
    injection hf with hf'
    subst hf'
    rw [hact]
    simp [runTimerAction, scheduleTimer]

/-- C7 witness: the invariant at the initial state, and a concrete scene
swap (to blackhole) after which speed equals the scene's resting value. -/
theorem C7_speed_invariant_witness :
    (0 ≤ initState.speed ∧
      (initState.speed = 1/5 ∨ initState.speed = 1 ∨
       initState.speed = 8 ∨ initState.speed = 12)) ∧
    (stepFire { initState with
        timers := [⟨0, 100, TAction.sceneSwap Scene.blackhole⟩], nextId := 1 }).speed =
      restingSpeed (stepFire { initState with
        timers := [⟨0, 100, TAction.sceneSwap Scene.blackhole⟩],
        nextId := 1 }).currentScene :=
  ⟨C7_speed_invariant.1 initState Reachable.init,
    C7_speed_invariant.2
      { initState with timers := [⟨0, 100, TAction.sceneSwap Scene.blackhole⟩], nextId := 1 }
      (stepFire { initState with
        timers := [⟨0, 100, TAction.sceneSwap Scene.blackhole⟩], nextId := 1 })
      ⟨0, 100, TAction.sceneSwap Scene.blackhole⟩ Scene.blackhole rfl rfl rfl⟩

end PortfolioSpec
